import Mathlib

/-!
Verification development for `src/librustc/traits/error_reporting/suggestions.rs`:
the diagnostic advisor for unsatisfied trait-bound obligations.  Each Rust
function relevant to the verified properties is shallowly embedded as an
executable Lean function over an explicit model of the data it touches
(types, obligation cause chains, diagnostics); external collaborators
(the trait solver, the HIR tree store, the source map) appear as function-valued
fields of per-function environment structures, exactly at the call sites the
Rust code uses them.
-/

namespace Suggestions

/-! ### Spans and ids

Source spans, `DefId` and `HirId` are opaque handles in the advisor; only
equality and (for spans) overlap tests are used. -/

abbrev DefId := Nat

abbrev HirId := Nat

structure Span where
  lo : Nat
  hi : Nat
deriving DecidableEq

/-- DUMMY_SP: the dummy span compared against in `BindingObligation` rendering. -/
def DUMMY_SP : Span := ⟨0, 0⟩

/-- Span.overlaps models `rustc_span::Span::overlaps` (non-empty intersection). -/
def Span.overlaps (a b : Span) : Bool :=
  decide (a.lo ≤ b.hi) && decide (b.lo ≤ a.hi)

/-! ### Types

A small closed model of `ty::TyKind` covering the kinds this module inspects:
references (`ty::Ref`), closures, fn items, generators and generator witnesses,
trait objects (`ty::Dynamic`), inference variables, params and nominal types. -/

inductive Mutability where
  | not
  | mutable
deriving DecidableEq

inductive Region where
  | reStatic
  | reFree (n : Nat)
  | reLateBound (n : Nat)
  | reErased
deriving DecidableEq

inductive Ty where
  | ref (r : Region) (t : Ty) (m : Mutability)
  | closure (defId : DefId)
  | fnDef (defId : DefId)
  | generator (defId : DefId)
  | generatorWitness (defId : DefId)
  | dynamic (principal : Option DefId) (name : String)
  | infer (v : Nat)
  | param (name : String)
  | base (name : String)
deriving DecidableEq

/-- tyToString models the user-visible `Display` rendering of a type used in
diagnostic messages (regions are elided as in the common rendering). -/
def tyToString : Ty → String
  | .ref _ t .mutable => "&mut " ++ tyToString t
  | .ref _ t .not => "&" ++ tyToString t
  | .closure d => "[closure@" ++ toString d ++ "]"
  | .fnDef d => "[fn@" ++ toString d ++ "]"
  | .generator d => "[generator@" ++ toString d ++ "]"
  | .generatorWitness d => "[generator witness@" ++ toString d ++ "]"
  | .dynamic _ n => "dyn " ++ n
  | .infer v => "_#" ++ toString v ++ "t"
  | .param n => n
  | .base n => n

/-- tyHasInferTypes models `TypeFoldable::has_infer_types` on the self type:
does an inference variable occur anywhere inside the type? -/
def tyHasInferTypes : Ty → Bool
  | .ref _ t _ => tyHasInferTypes t
  | .infer _ => true
  | _ => false

/-- eraseRegions models `tcx.erase_regions`: every free region is replaced by
`ReErased`; late-bound regions are preserved (which is why the capture analyzer
must also call `erase_late_bound_regions`, see the comment at
`maybe_note_obligation_cause_for_async_await`). -/
def eraseRegions : Ty → Ty
  | .ref r t m =>
    .ref (match r with | .reLateBound n => .reLateBound n | _ => .reErased)
      (eraseRegions t) m
  | t => t

/-- eraseLateBoundRegions models `tcx.erase_late_bound_regions` on
`Binder::bind(ty)`: late-bound regions are replaced by free regions. -/
def eraseLateBoundRegions : Ty → Ty
  | .ref r t m =>
    .ref (match r with | .reLateBound n => .reFree n | r => r)
      (eraseLateBoundRegions t) m
  | t => t

/-! ### Trait references, predicates, evaluation results -/

/-- TraitRef models `ty::TraitRef` restricted to what this module reads:
the trait `DefId`, the self type (`substs.type_at(0)`), and the rendering of
`print_only_trait_path`. -/
structure TraitRef where
  defId : DefId
  selfTy : Ty
  name : String
deriving DecidableEq

/-- traitRefPredString models rendering `trait_ref.to_predicate()` for display
(the `predicate: T: Trait` shape used in a few note messages). -/
def traitRefPredString (tr : TraitRef) : String :=
  tyToString tr.selfTy ++ ": " ++ tr.name

inductive Predicate where
  | trait (tr : TraitRef)
  | otherPred
deriving DecidableEq

inductive EvaluationResult where
  | evaluatedToOk
  | evaluatedToOkModuloRegions
  | evaluatedToAmbig
  | evaluatedToErr
deriving DecidableEq

/-- mustApplyModuloRegions models
`EvaluationResult::must_apply_modulo_regions` (defined outside this module):
the result proves the predicate holds, possibly modulo regions. -/
def mustApplyModuloRegions : EvaluationResult → Bool
  | .evaluatedToOk => true
  | .evaluatedToOkModuloRegions => true
  | _ => false

/-- evalAccepts models the `match self.evaluate_obligation(&obligation)` filter
in `suggest_fn_call`: `Ok(EvaluatedToOk | EvaluatedToOkModuloRegions |
EvaluatedToAmbig)` continues, everything else returns. -/
def evalAccepts : Option EvaluationResult → Bool
  | some .evaluatedToOk => true
  | some .evaluatedToOkModuloRegions => true
  | some .evaluatedToAmbig => true
  | _ => false

inductive Applicability where
  | machineApplicable
  | hasPlaceholders
  | maybeIncorrect
deriving DecidableEq

/-! ### Diagnostics

A model of `DiagnosticBuilder`: error code, primary message, primary-span
labels, child sub-diagnostics (notes/helps), and suggestions.  The mutating
`err.xxx` methods of the Rust code become pure append operations. -/

inductive SubDiagKind where
  | noteKind
  | helpKind
deriving DecidableEq

structure SubDiag where
  kind : SubDiagKind
  message : String
  spans : List (Span × String)
deriving DecidableEq

structure Suggestion where
  message : String
  parts : List (Span × String)
  applicability : Applicability
deriving DecidableEq

structure Diagnostic where
  code : Option String
  message : String
  labels : List (Span × String)
  children : List SubDiag
  suggestions : List Suggestion
deriving DecidableEq

def Diagnostic.note (d : Diagnostic) (s : String) : Diagnostic :=
  { d with children := d.children ++ [⟨.noteKind, s, []⟩] }

def Diagnostic.help (d : Diagnostic) (s : String) : Diagnostic :=
  { d with children := d.children ++ [⟨.helpKind, s, []⟩] }

def Diagnostic.spanNote (d : Diagnostic) (sps : List (Span × String)) (s : String) :
    Diagnostic :=
  { d with children := d.children ++ [⟨.noteKind, s, sps⟩] }

def Diagnostic.spanHelp (d : Diagnostic) (sp : Span) (s : String) : Diagnostic :=
  { d with children := d.children ++ [⟨.helpKind, s, [(sp, "")]⟩] }

def Diagnostic.spanLabel (d : Diagnostic) (sp : Span) (s : String) : Diagnostic :=
  { d with labels := d.labels ++ [(sp, s)] }

def Diagnostic.spanSuggestion (d : Diagnostic) (sp : Span) (msg repl : String)
    (app : Applicability) : Diagnostic :=
  { d with suggestions := d.suggestions ++ [⟨msg, [(sp, repl)], app⟩] }

/-- Diagnostic.spanSuggestionShort models `span_suggestion_short` (identical
data; the `_short` variant only changes terminal rendering). -/
def Diagnostic.spanSuggestionShort (d : Diagnostic) (sp : Span) (msg repl : String)
    (app : Applicability) : Diagnostic :=
  { d with suggestions := d.suggestions ++ [⟨msg, [(sp, repl)], app⟩] }

def Diagnostic.multipartSuggestion (d : Diagnostic) (msg : String)
    (parts : List (Span × String)) (app : Applicability) : Diagnostic :=
  { d with suggestions := d.suggestions ++ [⟨msg, parts, app⟩] }

/-! ### Obligation cause codes

The closed `ObligationCauseCode` enumeration, restricted to the variants the
module's exhaustive match in `note_obligation_cause_code` handles.  The two
derived variants each own a `DerivedObligationCause { parent_trait_ref,
parent_code }`; those two fields are flattened into the constructors. -/

inductive AdtKind where
  | adtStruct
  | adtUnion
  | adtEnum
deriving DecidableEq

inductive ObligationCauseCode where
  | exprAssignable
  | matchExpressionArm
  | patternCause
  | ifExpression
  | ifExpressionWithNoElse
  | mainFunctionType
  | startFunctionType
  | intrinsicType
  | methodReceiver
  | returnNoExpression
  | miscObligation
  | sliceOrArrayElem
  | tupleElem
  | projectionWf (data : String)
  | referenceOutlivesReferent (refTy : Ty)
  | objectTypeBound (objectTy : Ty) (region : String)
  | itemObligation (itemDefId : DefId)
  | bindingObligation (itemDefId : DefId) (span : Span)
  | objectCastObligation (objectTy : Ty)
  | coercion (target : Ty)
  | repeatVec (suggestConstInArrayRepeatExpressions : Bool)
  | variableType (hirId : HirId)
  | sizedArgumentType
  | sizedReturnType
  | sizedYieldType
  | assignmentLhsSized
  | tupleInitializerSized
  | structInitializerSized
  | fieldSized (adtKind : AdtKind) (last : Bool)
  | constSized
  | constPatternStructural
  | sharedStatic
  | builtinDerivedObligation (parentTraitRef : TraitRef) (parentCode : ObligationCauseCode)
  | implDerivedObligation (parentTraitRef : TraitRef) (parentCode : ObligationCauseCode)
  | compareImplMethodObligation
  | compareImplTypeObligation
  | returnTypeCause
  | returnValue (hirId : HirId)
  | blockTailExpression (hirId : HirId)
  | trivialBound
  | assocTypeBound (original : Span) (implSpan : Option Span) (bounds : List Span)
deriving DecidableEq

/-- isDerivedCode: is this one of the two derived-obligation variants? -/
def isDerivedCode : ObligationCauseCode → Bool
  | .builtinDerivedObligation _ _ => true
  | .implDerivedObligation _ _ => true
  | _ => false

/-- peelCode models `ObligationCauseCode::peel_derives` (declared outside this
module, used by `suggest_impl_trait` and `point_at_returns_when_relevant`):
strip derived-obligation wrappers until a non-derived cause is reached. -/
def peelCode : ObligationCauseCode → ObligationCauseCode
  | .builtinDerivedObligation _ parent => peelCode parent
  | .implDerivedObligation _ parent => peelCode parent
  | c => c

/-- mkBuiltinChain: build a cause chain of builtin-derived links over a leaf,
outermost link first.  Used to state properties of chains of a known shape. -/
def mkBuiltinChain (rs : List TraitRef) (leaf : ObligationCauseCode) :
    ObligationCauseCode :=
  rs.foldr (fun r acc => .builtinDerivedObligation r acc) leaf

structure ObligationCause where
  span : Span
  bodyId : HirId
  code : ObligationCauseCode
deriving DecidableEq

structure PredicateObligation where
  predicate : Predicate
  cause : ObligationCause
deriving DecidableEq

/-! ### The cause-chain walker: `note_obligation_cause_code`

The walker mutates the diagnostic through `err.note` / `err.span_label` /
`err.help`; the embedding returns the ordered list of emitted actions instead.
The pieces of `tcx` / session state the leaf arms consult become the fields of
`NoteTcx`. -/

inductive DiagAction where
  | note (s : String)
  | help (s : String)
  | label (sp : Span) (s : String)
deriving DecidableEq

structure NoteTcx where
  resolve : TraitRef → TraitRef
  defPathStr : DefId → String
  spanIfLocal : DefId → Option Span
  defSpan : Span → Span
  optItemNameSpan : DefId → Option Span
  nightlyBuild : Bool
  unsizedLocals : Bool

/-- Modelled from the spec: `is_recursive_obligation` is declared outside this
module; per the walker contract it detects a repeated subject type — it
reports a cycle when the next (derived) cause's resolved subject type is
already in the set of obligated types observed so far. -/
def is_recursive_obligation (tcx : NoteTcx) (obligatedTypes : List Ty)
    (code : ObligationCauseCode) : Bool :=
  match code with
  | .builtinDerivedObligation ptr _ => obligatedTypes.contains (tcx.resolve ptr).selfTy
  | .implDerivedObligation ptr _ => obligatedTypes.contains (tcx.resolve ptr).selfTy
  | _ => false

/-- note_obligation_cause_code: the obligation cause-chain walker.  One match
arm per `ObligationCauseCode` variant, emitting the arm's notes/labels/helps in
source order; the two derived arms recurse on `parent_code` (the builtin arm
pushes the resolved parent subject type and consults the cycle guard first, the
impl arm recurses unconditionally).  Totality of this Lean function is the
termination property of the walk. -/
def note_obligation_cause_code (tcx : NoteTcx) (predicate : String)
    (code : ObligationCauseCode) (obligatedTypes : List Ty) : List DiagAction :=
  match code with
  | .exprAssignable => []
  | .matchExpressionArm => []
  | .patternCause => []
  | .ifExpression => []
  | .ifExpressionWithNoElse => []
  | .mainFunctionType => []
  | .startFunctionType => []
  | .intrinsicType => []
  | .methodReceiver => []
  | .returnNoExpression => []
  | .miscObligation => []
  | .sliceOrArrayElem =>
    [.note ("slice and array elements must have `Sized` type")]
  | .tupleElem =>
    [.note ("only the last element of a tuple may have a dynamically sized type")]
  | .projectionWf data =>
    [.note ("required so that the projection `" ++ data ++ "` is well-formed")]
  | .referenceOutlivesReferent refTy =>
    [.note ("required so that reference `" ++ tyToString refTy ++
      "` does not outlive its referent")]
  | .objectTypeBound objectTy region =>
    [.note ("required so that the lifetime bound of `" ++ region ++ "` for `" ++
      tyToString objectTy ++ "` is satisfied")]
  | .itemObligation itemDefId =>
    let itemName := tcx.defPathStr itemDefId
    let msg := "required by `" ++ itemName ++ "`"
    (match tcx.spanIfLocal itemDefId with
     | some sp => [.label (tcx.defSpan sp) msg]
     | none => [.note msg])
  | .bindingObligation itemDefId span =>
    let itemName := tcx.defPathStr itemDefId
    let msg := "required by this bound in `" ++ itemName ++ "`"
    (match tcx.optItemNameSpan itemDefId with
     | some identSpan => [.label identSpan ("")]
     | none => []) ++
    (if span ≠ DUMMY_SP then [.label span msg] else [.note msg])
  | .objectCastObligation objectTy =>
    [.note ("required for the cast to the object type `" ++ tyToString objectTy ++ "`")]
  | .coercion target =>
    [.note ("required by cast to type `" ++ tyToString target ++ "`")]
  | .repeatVec suggestConst =>
    [.note ("the `Copy` trait is required because the repeated element will be copied")] ++
    (if suggestConst then
      [.note ("this array initializer can be evaluated at compile-time, for more " ++
        "information, see issue https://github.com/rust-lang/rust/issues/49147")] ++
      (if tcx.nightlyBuild then
        [.help ("add `#![feature(const_in_array_repeat_expressions)]` to the " ++
          "crate attributes to enable")]
       else [])
     else [])
  | .variableType _ =>
    [.note ("all local variables must have a statically known size")] ++
    (if !tcx.unsizedLocals then
      [.help ("unsized locals are gated as an unstable feature")] else [])
  | .sizedArgumentType =>
    [.note ("all function arguments must have a statically known size")] ++
    (if !tcx.unsizedLocals then
      [.help ("unsized locals are gated as an unstable feature")] else [])
  | .sizedReturnType =>
    [.note ("the return type of a function must have a statically known size")]
  | .sizedYieldType =>
    [.note ("the yield type of a generator must have a statically known size")]
  | .assignmentLhsSized =>
    [.note ("the left-hand-side of an assignment must have a statically known size")]
  | .tupleInitializerSized =>
    [.note ("tuples must have a statically known size to be initialized")]
  | .structInitializerSized =>
    [.note ("structs must have a statically known size to be initialized")]
  | .fieldSized adtKind last =>
    (match adtKind with
     | .adtStruct =>
       if last then
         [.note ("the last field of a packed struct may only have a dynamically " ++
           "sized type if it does not need drop to be run")]
       else
         [.note ("only the last field of a struct may have a dynamically sized type")]
     | .adtUnion =>
       [.note ("no field of a union may have a dynamically sized type")]
     | .adtEnum =>
       [.note ("no field of an enum variant may have a dynamically sized type")])
  | .constSized =>
    [.note ("constant expressions must have a statically known size")]
  | .constPatternStructural =>
    [.note ("constants used for pattern-matching must derive `PartialEq` and `Eq`")]
  | .sharedStatic =>
    [.note ("shared static variables must have a type that implements `Sync`")]
  | .builtinDerivedObligation ptr parentCode =>
    let parentTraitRef := tcx.resolve ptr
    let ty := parentTraitRef.selfTy
    let first := [DiagAction.note ("required because it appears within the type `" ++
      tyToString ty ++ "`")]
    let obligatedTypes := obligatedTypes ++ [ty]
    let parentPredicate := traitRefPredString parentTraitRef
    if is_recursive_obligation tcx obligatedTypes parentCode then first
    else first ++ note_obligation_cause_code tcx parentPredicate parentCode obligatedTypes
  | .implDerivedObligation ptr parentCode =>
    let parentTraitRef := tcx.resolve ptr
    let first := [DiagAction.note ("required because of the requirements on the impl of `" ++
      parentTraitRef.name ++ "` for `" ++ tyToString parentTraitRef.selfTy ++ "`")]
    let parentPredicate := traitRefPredString parentTraitRef
    first ++ note_obligation_cause_code tcx parentPredicate parentCode obligatedTypes
  | .compareImplMethodObligation =>
    [.note ("the requirement `" ++ predicate ++ "` appears on the impl method " ++
      "but not on the corresponding trait method")]
  | .compareImplTypeObligation =>
    [.note ("the requirement `" ++ predicate ++ "` appears on the associated impl " ++
      "type but not on the corresponding associated trait type")]
  | .returnTypeCause => []
  | .returnValue _ => []
  | .blockTailExpression _ => []
  | .trivialBound =>
    [.help ("see issue #48214")] ++
    (if tcx.nightlyBuild then
      [.help ("add `#![feature(trivial_bounds)]` to the crate attributes to enable")]
     else [])
  | .assocTypeBound original implSpan bounds =>
    [.label original ("associated type defined here")] ++
    (match implSpan with
     | some sp => [.label sp ("in this `impl` item")]
     | none => []) ++
    bounds.map (fun sp => .label sp ("restricted in this bound"))

/-- chainTys: the resolved subject types of the derived links of a cause
chain, outermost first — the types the walk would push onto / compare against
the obligated-types set. -/
def chainTys (tcx : NoteTcx) : ObligationCauseCode → List Ty
  | .builtinDerivedObligation ptr parent =>
    (tcx.resolve ptr).selfTy :: chainTys tcx parent
  | .implDerivedObligation ptr parent =>
    (tcx.resolve ptr).selfTy :: chainTys tcx parent
  | _ => []

/-! ### The async/generator capture analyzer:
`maybe_note_obligation_cause_for_async_await` -/

/-- GeneratorInteriorTypeCause: one entry of the generator interior-type table
(`tables.generator_interior_types`). -/
structure GeneratorInteriorTypeCause where
  ty : Ty
  span : Span
  scopeSpan : Option Span
  expr : Option HirId
deriving DecidableEq

structure TypeckTables where
  generatorInteriorTypes : List GeneratorInteriorTypeCause
deriving DecidableEq

/-- AsyncEnv: the external lookups `maybe_note_obligation_cause_for_async_await`
performs.  `tables` stands for the typeck tables selected for the found
generator (the in-progress tables when type-checking it, otherwise the result
of the `typeck_tables_of` query — a caching distinction with no effect on the
lookup's content). -/
structure AsyncEnv where
  asLocalHirId : DefId → Option HirId
  spanToSnippet : Span → Option String
  tables : TypeckTables

/-- AsyncScanState: the four mutable locals of the cause-chain scanning loop. -/
structure AsyncScanState where
  traitRef : Option TraitRef
  targetTy : Option Ty
  generator : Option DefId
  lastGenerator : Option DefId
deriving DecidableEq

/-- asyncScan: the `while let Some(code) = next_code` loop.  On each derived
link it inspects the parent subject type: a generator records itself
(`generator.or(..)` keeps the first, `last_generator` keeps the last), a
generator witness is skipped, and any other type seen before the first
generator replaces `trait_ref` / `target_ty`.  A non-derived code breaks. -/
def asyncScan (st : AsyncScanState) : ObligationCauseCode → AsyncScanState
  | .builtinDerivedObligation ptr parentCode =>
    asyncScan (asyncScanStep st ptr) parentCode
  | .implDerivedObligation ptr parentCode =>
    asyncScan (asyncScanStep st ptr) parentCode
  | _ => st
where
  asyncScanStep (st : AsyncScanState) (ptr : TraitRef) : AsyncScanState :=
    match ptr.selfTy with
    | .generator did =>
      { st with
        generator := (match st.generator with | some g => some g | none => some did),
        lastGenerator := some did }
    | .generatorWitness _ => st
    | ty =>
      if st.generator.isNone then
        { st with traitRef := some ptr, targetTy := some ty }
      else st

/-- asyncInitState: the initial values of the loop locals, from
`obligation.predicate`: a trait predicate provides the trait ref and its self
type, anything else leaves both unset. -/
def asyncInitState (p : Predicate) : AsyncScanState :=
  match p with
  | .trait tr => ⟨some tr, some tr.selfTy, none, none⟩
  | .otherPred => ⟨none, none, none, none⟩

/-- maybe_note_obligation_cause_for_async_await, embedded as the `Bool` the
Rust function returns (`true` = an async-await specific note was added; the
rendering performed by `note_obligation_cause_for_async_await` before
returning `true` is not needed by the verified properties).  The interior
entry search erases late-bound regions then regions on the candidate type and
compares it structurally with the region-erased target type. -/
def maybe_note_obligation_cause_for_async_await (env : AsyncEnv)
    (obligation : PredicateObligation) : Bool :=
  let st := asyncScan (asyncInitState obligation.predicate) obligation.cause.code
  match st.generator, st.traitRef, st.targetTy with
  | some generatorDid, some _, some targetTy =>
    if (env.asLocalHirId generatorDid).isNone then false
    else
      let targetTyErased := eraseRegions targetTy
      let targetSpan :=
        (env.tables.generatorInteriorTypes.find? (fun c =>
          let tyErased := eraseRegions (eraseLateBoundRegions c.ty)
          decide (tyErased = targetTyErased))).map
          (fun c => (c.span, env.spanToSnippet c.span, c.scopeSpan, c.expr))
      match targetSpan with
      | some (_, some _, _, _) => true
      | _ => false
  | _, _, _ => false

/-! ### Snippet-prefix helpers shared by `suggest_remove_reference` and
`suggest_change_mut` -/

/-- lifetimeTick: the lifetime sigil character (ASCII 39). -/
def lifetimeTick : Char := Char.ofNat 39

/-- countLeadingAmps models
`snippet.chars().filter(|c| !c.is_whitespace()).take_while(|c| *c == '&').count()`. -/
def countLeadingAmps (s : String) : Nat :=
  ((s.toList.filter (fun c => !c.isWhitespace)).takeWhile (fun c => c == '&')).length

/-- snippetStartsWithAmp models `snippet.starts_with('&')`: the first
character of the snippet is a reference operator. -/
def snippetStartsWithAmp (s : String) : Bool :=
  match s.toList with
  | c :: _ => c == '&'
  | [] => false

/-- nthNonWsIsTick models
`snippet.chars().filter(..).skip(refs_number).next() == Some('\x27')`:
after the leading reference operators comes a lifetime token. -/
def nthNonWsIsTick (s : String) (n : Nat) : Bool :=
  match (s.toList.filter (fun c => !c.isWhitespace)).drop n with
  | c :: _ => c == lifetimeTick
  | [] => false

/-! ### `suggest_remove_reference` -/

structure RemoveRefEnv where
  snippet : Span → Option String
  predicateMayHold : Ty → Bool
  spanTakeWhileAmps : Span → Span

/-- removeRefLoop: the `for refs_remaining in 0..refs_number` loop.  `fuel` is
the number of iterations left (`refs_number - refs_remaining`); each iteration
peels one `ty::Ref` level, re-checks satisfiability on the peeled type, and on
the first success emits the removal suggestion and breaks; a non-reference
type breaks. -/
def removeRefLoop (env : RemoveRefEnv) (err : Diagnostic) (span : Span) :
    Nat → Ty → Nat → Diagnostic
  | 0, _, _ => err
  | fuel + 1, traitType, refsRemaining =>
    match traitType with
    | .ref _ t _ =>
      if env.predicateMayHold t then
        let removeRefs := refsRemaining + 1
        err.spanSuggestionShort (env.spanTakeWhileAmps span)
          ("consider removing " ++ toString removeRefs ++ " leading `&`-references")
          ("") .machineApplicable
      else removeRefLoop env err span fuel t (refsRemaining + 1)
    | _ => err

/-- suggest_remove_reference: count the leading `&` operators of the origin
snippet, bail out if they are followed by a lifetime token, then peel and
re-check up to that many reference levels. -/
def suggest_remove_reference (env : RemoveRefEnv) (obligation : PredicateObligation)
    (err : Diagnostic) (traitRef : TraitRef) : Diagnostic :=
  let span := obligation.cause.span
  match env.snippet span with
  | none => err
  | some snippet =>
    let refsNumber := countLeadingAmps snippet
    if nthNonWsIsTick snippet refsNumber then err
    else removeRefLoop env err span refsNumber traitRef.selfTy 0

/-! ### `suggest_change_mut` -/

structure ChangeMutEnv where
  snippet : Span → Option String
  resolve : TraitRef → TraitRef
  evaluateNoOverflow : TraitRef → EvaluationResult
  spanTakeWhileAmps : Span → Span

/-- flipMutRef models the `mk_imm_ref` / `mk_mut_ref` arm: the same reference
with the opposite mutability. -/
def flipMutRef (region : Region) (t : Ty) : Mutability → Ty
  | .mutable => .ref region t .not
  | .not => .ref region t .mutable

/-- suggest_change_mut: if the (resolved) self type is a reference, check the
opposite-mutability reference; when that must hold, either suggest `&mut ` (at
argument position, on an immutable reference with at least one leading `&`) or
note the mutability difference.  Bails out on a failed snippet lookup, on a
lifetime token after the leading `&`s, and on unresolved inference variables. -/
def suggest_change_mut (env : ChangeMutEnv) (obligation : PredicateObligation)
    (err : Diagnostic) (traitRef : TraitRef) (pointsAtArg : Bool) : Diagnostic :=
  let span := obligation.cause.span
  match env.snippet span with
  | none => err
  | some snippet =>
    let refsNumber := countLeadingAmps snippet
    if nthNonWsIsTick snippet refsNumber then err
    else
      let traitRef := env.resolve traitRef
      if tyHasInferTypes traitRef.selfTy then err
      else
        match traitRef.selfTy with
        | .ref region tType mutability =>
          let traitType := flipMutRef region tType mutability
          if mustApplyModuloRegions
              (env.evaluateNoOverflow { traitRef with selfTy := traitType }) then
            let sp := env.spanTakeWhileAmps span
            if pointsAtArg && (mutability == Mutability.not) && decide (refsNumber > 0) then
              err.spanSuggestion sp ("consider changing this borrow\x27s mutability")
                ("&mut ") .machineApplicable
            else
              err.note ("`" ++ traitRef.name ++ "` is implemented for `" ++
                tyToString traitType ++ "`, but not for `" ++
                tyToString traitRef.selfTy ++ "`")
          else err
        | _ => err

/-! ### `suggest_fn_call` and `get_closure_name` -/

inductive BindingAnnotation where
  | unannotated
  | annotatedOther
deriving DecidableEq

/-- PatKind: the pattern shapes `get_closure_name` and the fn-item parameter
walk of `suggest_fn_call` distinguish.  `sub = true` models a `Some(..)`
subpattern. -/
inductive PatKind where
  | binding (ba : BindingAnnotation) (name : String) (sub : Bool)
  | otherPat
deriving DecidableEq

/-- FnLikeLocalNode: the HIR node shapes `hir.get_if_local(def_id)` can hand
back to `suggest_fn_call` (`closureExpr` keeps the closure declaration's input
count and span; `fnItem` keeps the ident and the body's parameter patterns). -/
inductive FnLikeLocalNode where
  | closureExpr (numInputs : Nat) (span : Span)
  | fnItem (identName : String) (identSpan : Span) (bodyParams : List PatKind)
  | otherNode
deriving DecidableEq

structure FnCallEnv where
  closureSigOutput : DefId → Ty
  fnSigOutput : DefId → Ty
  evaluate : DefId → Ty → Option EvaluationResult
  getIfLocal : DefId → Option FnLikeLocalNode
  closureParentPat : DefId → Option PatKind

/-- fnParamSuggName: one fn-item parameter's rendering in the suggested call:
a plain binding that is not `self` contributes its name, everything else `_`. -/
def fnParamSuggName (p : PatKind) : String :=
  match p with
  | .binding _ name false => if name ≠ "self" then name else "_"
  | _ => "_"

/-- get_closure_name, embedded as the name component: `Some name` when the
closure's parent node is a local whose pattern is an unannotated binding with
no subpattern (the other cases emit a note on the diagnostic and yield none;
the note is replayed by the caller model below). -/
def get_closure_name (env : FnCallEnv) (defId : DefId) : Option String :=
  match env.closureParentPat defId with
  | some (.binding .unannotated name false) => some name
  | _ => none

/-- suggest_fn_call: when the self type is a closure or fn item whose output
type would satisfy the trait bound (per the external solver), suggest calling
it, rendering a placeholder argument list for closures and the parameter
binding names for fn items. -/
def suggest_fn_call (env : FnCallEnv) (obligation : PredicateObligation)
    (err : Diagnostic) (traitRef : TraitRef) (pointsAtArg : Bool) : Diagnostic :=
  let info : Option (DefId × Ty × String) :=
    match traitRef.selfTy with
    | .closure d => some (d, env.closureSigOutput d, "closure")
    | .fnDef d => some (d, env.fnSigOutput d, "function")
    | _ => none
  match info with
  | none => err
  | some (defId, outputTy, callable) =>
    let msg := "use parentheses to call the " ++ callable
    if evalAccepts (env.evaluate traitRef.defId outputTy) then
      match env.getIfLocal defId with
      | some (.closureExpr numInputs sp) =>
        let err := err.spanLabel sp ("consider calling this closure")
        (match env.closureParentPat defId with
         | some (.binding .unannotated name false) =>
           let args := String.intercalate (", ") (List.replicate numInputs ("_"))
           let snippet := name ++ "(" ++ args ++ ")"
           suggestFnCallEmit err obligation msg snippet pointsAtArg
         | some _ => err.note msg
         | none => err)
      | some (.fnItem identName identSpan bodyParams) =>
        let err := err.spanLabel identSpan ("consider calling this function")
        let args := String.intercalate (", ") (bodyParams.map fnParamSuggName)
        let snippet := identName ++ "(" ++ args ++ ")"
        suggestFnCallEmit err obligation msg snippet pointsAtArg
      | _ => err
    else err
where
  suggestFnCallEmit (err : Diagnostic) (obligation : PredicateObligation)
      (msg snippet : String) (pointsAtArg : Bool) : Diagnostic :=
    if pointsAtArg then
      err.spanSuggestion obligation.cause.span msg snippet .hasPlaceholders
    else
      err.help (msg ++ ": `" ++ snippet ++ "`")

/-! ### `suggest_add_reference_to_arg` -/

structure AddRefEnv where
  predicateMustHoldModuloRegions : TraitRef → Bool
  snippet : Span → Option String

/-- suggest_add_reference_to_arg: when the cause is a (single) impl-derived
link whose parent bound would hold for `&'static self_ty`, rewrite the
diagnostic's primary message (or append a note under a custom message) to the
parent bound, then — only if the origin snippet is not already a borrow —
attach the borrow suggestion and report `true`. -/
def suggest_add_reference_to_arg (env : AddRefEnv) (obligation : PredicateObligation)
    (err : Diagnostic) (traitRef : TraitRef) (pointsAtArg hasCustomMessage : Bool) :
    Bool × Diagnostic :=
  if !pointsAtArg then (false, err)
  else
    let span := obligation.cause.span
    match obligation.cause.code with
    | .implDerivedObligation parentTraitRef _ =>
      let selfTy := traitRef.selfTy
      let found := tyToString selfTy
      let newSelfTy := Ty.ref .reStatic selfTy .not
      let newTraitRef := { parentTraitRef with selfTy := newSelfTy }
      if env.predicateMustHoldModuloRegions newTraitRef then
        match env.snippet span with
        | some snippet =>
          let msg := "the trait bound `" ++ found ++ ": " ++ parentTraitRef.name ++
            "` is not satisfied"
          let err := if hasCustomMessage then err.note msg
            else { err with message := msg }
          if snippetStartsWithAmp snippet then (false, err)
          else
            let err := err.spanLabel span ("expected an implementor of trait `" ++
              parentTraitRef.name ++ "`")
            let err := err.spanSuggestion span ("consider borrowing here")
              ("&" ++ snippet) .maybeIncorrect
            (true, err)
        | none => (false, err)
      else (false, err)
    | _ => (false, err)

/-! ### `suggest_borrow_on_unsized_slice` -/

inductive ExprKind where
  | indexExpr
  | otherExpr
deriving DecidableEq

structure ExprInfo where
  span : Span
  kind : ExprKind
deriving DecidableEq

/-- LocalNode: a `Node::Local` with its optional initializer expression. -/
structure LocalNode where
  init : Option ExprInfo
deriving DecidableEq

structure BorrowSliceEnv where
  parentLocal : HirId → Option LocalNode
  snippet : Span → Option String

/-- suggest_borrow_on_unsized_slice: on a `VariableType` cause whose local's
initializer is an indexing expression, suggest borrowing the initializer; a
failed snippet lookup silently declines. -/
def suggest_borrow_on_unsized_slice (env : BorrowSliceEnv)
    (code : ObligationCauseCode) (err : Diagnostic) : Diagnostic :=
  match code with
  | .variableType hirId =>
    (match env.parentLocal hirId with
     | some localNode =>
       (match localNode.init with
        | some expr =>
          (match expr.kind with
           | .indexExpr =>
             (match env.snippet expr.span with
              | some snippet =>
                err.spanSuggestion expr.span ("consider borrowing here")
                  ("&" ++ snippet) .machineApplicable
              | none => err)
           | .otherExpr => err)
        | none => err)
     | none => err)
  | _ => err

/-! ### `get_fn_like_arguments` and `ArgKind` -/

/-- ArgKind (declared outside this module): the argument shapes the
count/shape mismatch reporter renders. -/
inductive ArgKind where
  | arg (name : String) (tyText : String)
  | tuple (span : Option Span) (fields : List (String × String))
deriving DecidableEq

/-- Modelled from the spec: `ArgKind::empty` is declared outside this module;
per the argument-shape data model it is a flat argument with placeholder name
and type text. -/
def ArgKind.empty : ArgKind := .arg ("_") ("_")

inductive PatShape where
  | tuplePat (elems : List Span)
  | nonTuplePat
deriving DecidableEq

structure FnPat where
  span : Span
  kind : PatShape
deriving DecidableEq

inductive HirInputTy where
  | tupTy (span : Span) (n : Nat)
  | otherTy
deriving DecidableEq

/-- FnLikeNode: the node shapes `get_fn_like_arguments` matches on; `notFnLike`
stands for any node outside the recognized closed set. -/
inductive FnLikeNode where
  | closureExpr (span : Span) (bodyParams : List FnPat)
  | fnLikeItem (span : Span) (inputs : List HirInputTy)
  | ctorNode (span : Option Span) (numFields : Nat)
  | notFnLike
deriving DecidableEq

inductive PanicKind where
  | snippetUnwrap
  | nonFnLike
deriving DecidableEq

structure FnLikeEnv where
  snippet : Span → Option String
  defSpan : Span → Span

/-- fnLikeTupleFields: the tuple-pattern branch of the closure arm — one
`(snippet, "_")` pair per tuple element, where the snippet lookup is
`unwrap`ped (a failed lookup panics). -/
def fnLikeTupleFields (env : FnLikeEnv) :
    List Span → Except PanicKind (List (String × String))
  | [] => .ok []
  | sp :: sps =>
    match env.snippet sp with
    | some s => (fnLikeTupleFields env sps).map (fun rest => (s, "_") :: rest)
    | none => .error .snippetUnwrap

/-- fnLikeClosureArgs: the closure arm's parameter walk; both snippet lookups
(`pat.span` for tuple elements, `arg.pat.span` for plain parameters) are
`unwrap`ped. -/
def fnLikeClosureArgs (env : FnLikeEnv) :
    List FnPat → Except PanicKind (List ArgKind)
  | [] => .ok []
  | p :: ps =>
    match p.kind with
    | .tuplePat elems =>
      match fnLikeTupleFields env elems with
      | .ok fields =>
        (fnLikeClosureArgs env ps).map (fun rest => ArgKind.tuple (some p.span) fields :: rest)
      | .error e => .error e
    | .nonTuplePat =>
      match env.snippet p.span with
      | some name => (fnLikeClosureArgs env ps).map (fun rest => ArgKind.arg name ("_") :: rest)
      | none => .error .snippetUnwrap

/-- get_fn_like_arguments: span and `ArgKind` list for a fn-like node.  The
`Except` error is the function's two panics: the snippet `unwrap`s in the
closure arm and the `panic!("non-FnLike node found")` contract violation. -/
def get_fn_like_arguments (env : FnLikeEnv) (node : FnLikeNode) :
    Except PanicKind (Span × List ArgKind) :=
  match node with
  | .closureExpr span bodyParams =>
    (fnLikeClosureArgs env bodyParams).map (fun args => (env.defSpan span, args))
  | .fnLikeItem span inputs =>
    .ok (env.defSpan span, inputs.map (fun i =>
      match i with
      | .tupTy sp n => ArgKind.tuple (some sp) (List.replicate n (("_"), ("_")))
      | .otherTy => ArgKind.empty))
  | .ctorNode sp numFields =>
    .ok (env.defSpan (sp.getD DUMMY_SP), List.replicate numFields ArgKind.empty)
  | .notFnLike => .error .nonFnLike

/-! ### `suggest_impl_trait` -/

/-- HirTy: the HIR return-type node (`sig.decl.output`'s type). -/
structure HirTy where
  hirId : HirId
  span : Span
  isTraitObject : Bool
deriving DecidableEq

inductive FunctionRetTy where
  | defaultReturn (sp : Span)
  | returnTy (t : HirTy)
deriving DecidableEq

structure RetExpr where
  hirId : HirId
  span : Span
deriving DecidableEq

/-- ImplTraitEnv: external lookups of `suggest_impl_trait`.  `fnSig` is the
output of the enclosing fn item when the parent node is one (`None`
otherwise); `bodyReturns` is what `ReturnsVisitor` collects over its body;
`nodeType` is `tables.node_type_opt`; `dynPredsMayHold dynTy retTy` is the
solver check that every predicate of the trait object `dynTy`, with self type
`retTy`, may hold. -/
structure ImplTraitEnv where
  fnSig : Option FunctionRetTy
  bodyReturns : List RetExpr
  resolve : TraitRef → TraitRef
  nodeType : HirId → Option Ty
  snippet : Span → Option String
  objectSafetyViolationsEmpty : DefId → Bool
  dynPredsMayHold : Ty → Ty → Bool

/-- firstWord models `snippet.split_whitespace().next()`: skip leading
whitespace, then take the first maximal run of non-whitespace characters. -/
def firstWord (s : String) : Option String :=
  match (s.toList.dropWhile Char.isWhitespace).takeWhile (fun c => !c.isWhitespace) with
  | [] => none
  | cs => some (String.mk cs)

/-- ImplTraitFire: the data flowing past all of `suggest_impl_trait`'s early
returns into the diagnostic-rewriting tail (everything from `err.code(..)` on). -/
structure ImplTraitFire where
  retTy : HirTy
  snippetStr : String
  lastTy : Ty
  allSame : Bool
  isObjectSafe : Bool
deriving DecidableEq

/-- implTraitGate: the early-return prefix of `suggest_impl_trait` (source
lines 556-647): cause must peel to `SizedReturnType`, the parent node must be
a fn item with an explicit return type, the self type must be a trait object,
the return-type span must overlap the error span and be a `TraitObject` HIR
node with a retrievable snippet, all returns must conform to the trait, and at
least one typed return must exist.  Returns the data for the rewriting tail,
or `none` when the function returns `false` without touching the diagnostic. -/
def implTraitGate (env : ImplTraitEnv) (span : Span)
    (obligation : PredicateObligation) (traitRef : TraitRef) : Option ImplTraitFire :=
  match peelCode obligation.cause.code with
  | .sizedReturnType =>
    (match env.fnSig with
     | some sig =>
       let ty := (env.resolve traitRef).selfTy
       (match ty with
        | .dynamic principal _ =>
          let isObjectSafe :=
            match principal with
            | some defId => env.objectSafetyViolationsEmpty defId
            | none => true
          (match sig with
           | .returnTy retTy =>
             let retTypes := env.bodyReturns.filterMap (fun e => env.nodeType e.hirId)
             let folded := retTypes.foldl
               (fun acc returnedTy =>
                 (some returnedTy,
                  acc.2 && (match acc.1 with
                            | none => true
                            | some t => decide (t = returnedTy))))
               ((none : Option Ty), true)
             let lastTy := folded.1
             let allSame := folded.2
             let conform :=
               match env.nodeType retTy.hirId with
               | some tyRetTy =>
                 (match tyRetTy with
                  | .dynamic _ _ => retTypes.all (fun rt => env.dynPredsMayHold tyRetTy rt)
                  | _ => true)
               | none => true
             (match retTy.span.overlaps span, retTy.isTraitObject,
                    env.snippet retTy.span, conform, lastTy with
              | true, true, some snip, true, some lt =>
                some ⟨retTy, snip, lt, allSame, isObjectSafe⟩
              | _, _, _, _, _ => none)
           | .defaultReturn _ => none)
        | _ => none)
     | none => none)
  | _ => none

def implTraitMsgStr : String :=
  "for information on `impl Trait`, see " ++
  "<https://doc.rust-lang.org/book/ch10-02-traits.html" ++
  "#returning-types-that-implement-traits>"

def traitObjMsgStr : String :=
  "for information on trait objects, see " ++
  "<https://doc.rust-lang.org/book/ch17-02-trait-objects.html" ++
  "#using-trait-objects-that-allow-for-values-of-different-types>"

/-- implTraitHasDyn: `snippet.split_whitespace().next() == Some("dyn")`. -/
def implTraitHasDyn (f : ImplTraitFire) : Bool :=
  decide (firstWord f.snippetStr = some ("dyn"))

/-- implTraitObjStr: the `trait_obj` local — the snippet with its leading
`dyn ` stripped (`&snippet[4..]`, byte indexing modelled as dropping four
characters). -/
def implTraitObjStr (f : ImplTraitFire) : String :=
  if implTraitHasDyn f then String.mk (f.snippetStr.toList.drop 4) else f.snippetStr

/-- implTraitBoxParts: the `Box::new(..)` replacement parts, one per collected
return expression; each snippet lookup is `unwrap`ped, so a failed lookup is a
panic (`none`). -/
def implTraitBoxParts (env : ImplTraitEnv) :
    List RetExpr → Option (List (Span × String))
  | [] => some []
  | e :: es =>
    match env.snippet e.span with
    | some s =>
      (implTraitBoxParts env es).map (fun rest => (e.span, "Box::new(" ++ s ++ ")") :: rest)
    | none => none

/-- implTraitFireStep: the diagnostic-rewriting tail of `suggest_impl_trait`
(source lines 648-717): set code `E0746`, replace the primary message, clear
the children, then either suggest `impl Trait` (all returns of one type) or
the boxed alternatives, and return `true`.  `none` models the panic of the
snippet `unwrap` inside the boxed-suggestion branch. -/
def implTraitFireStep (env : ImplTraitEnv) (err : Diagnostic) (f : ImplTraitFire) :
    Option (Bool × Diagnostic) :=
  let err := { err with
    code := some ("E0746"),
    message := "return type cannot have an unboxed trait object",
    children := [] }
  let traitObj := implTraitObjStr f
  if f.allSame then
    let err := err.spanSuggestion f.retTy.span
      ("return `impl " ++ traitObj ++ "` instead, as all return paths are of type `" ++
        tyToString f.lastTy ++ "`, which implements `" ++ traitObj ++ "`")
      ("impl " ++ traitObj) .machineApplicable
    let err := err.note implTraitMsgStr
    some (true, err)
  else
    let step : Option Diagnostic :=
      if f.isObjectSafe then
        match implTraitBoxParts env env.bodyReturns with
        | some parts =>
          let parts := parts ++ [(f.retTy.span,
            "Box<" ++ (if implTraitHasDyn f then "" else "dyn ") ++ f.snippetStr ++ ">")]
          some (err.multipartSuggestion ("return a boxed trait object instead")
            parts .maybeIncorrect)
        | none => none
      else
        some (err.note ("if trait `" ++ traitObj ++
          "` was object safe, you could return a trait object"))
    match step with
    | none => none
    | some err =>
      let err := err.note traitObjMsgStr
      let err := err.note ("if all the returned values were of the same type you " ++
        "could use `impl " ++ traitObj ++ "` as the return type")
      let err := err.note implTraitMsgStr
      let err := err.note ("you can create a new `enum` with a variant for each returned type")
      some (true, err)

/-- suggest_impl_trait: `some (fired, err)` on normal return, `none` on the
boxed-branch snippet panic. -/
def suggest_impl_trait (env : ImplTraitEnv) (err : Diagnostic) (span : Span)
    (obligation : PredicateObligation) (traitRef : TraitRef) :
    Option (Bool × Diagnostic) :=
  match implTraitGate env span obligation traitRef with
  | none => some (false, err)
  | some f => implTraitFireStep env err f

/-! ### `report_arg_count_mismatch` -/

structure ArgMismatchEnv where
  spanUntilNonWhitespace : Span → Span
  trimStart : Span → Span → Option Span

/-- args_str: the `args_str` closure — "a single K-tuple as argument" for a
lone tuple shape, otherwise "N [distinct ]argument(s)", with "distinct" when
the other side is a lone tuple and this side has more than one argument. -/
def args_str (arguments other : List ArgKind) : String :=
  let argLength := arguments.length
  let distinct :=
    match other with
    | [ArgKind.tuple _ _] => true
    | _ => false
  match arguments with
  | [ArgKind.tuple _ fields] =>
    "a single " ++ toString fields.length ++ "-tuple as argument"
  | _ =>
    toString argLength ++ " " ++
    (if distinct && decide (argLength > 1) then "distinct " else "") ++
    "argument" ++ (if argLength = 1 then "" else "s")

/-- report_arg_count_mismatch: build the E0593 diagnostic and, when a found
span is available, attach the shape-specific suggestions (ignore-arguments,
destructure-tuple, re-tuple). -/
def report_arg_count_mismatch (env : ArgMismatchEnv) (span : Span)
    (foundSpan : Option Span) (expectedArgs foundArgs : List ArgKind)
    (isClosure : Bool) : Diagnostic :=
  let kind := if isClosure then "closure" else "function"
  let expectedStr := args_str expectedArgs foundArgs
  let foundStr := args_str foundArgs expectedArgs
  let err : Diagnostic :=
    { code := some ("E0593"),
      message := kind ++ " is expected to take " ++ expectedStr ++
        ", but it takes " ++ foundStr,
      labels := [], children := [], suggestions := [] }
  let err := err.spanLabel span ("expected " ++ kind ++ " that takes " ++ expectedStr)
  match foundSpan with
  | none => err
  | some foundSpan =>
    let err := err.spanLabel foundSpan ("takes " ++ foundStr)
    let prefixSpan := env.spanUntilNonWhitespace foundSpan
    let pipeSpan := (env.trimStart foundSpan prefixSpan).getD foundSpan
    let err :=
      if foundArgs.isEmpty && isClosure then
        let underscores := String.intercalate (", ")
          (List.replicate expectedArgs.length ("_"))
        err.spanSuggestion pipeSpan
          ("consider changing the closure to take and ignore the expected argument" ++
            (if decide (expectedArgs.length < 2) then "" else "s"))
          ("|" ++ underscores ++ "|") .machineApplicable
      else err
    let err :=
      match foundArgs with
      | [ArgKind.tuple _ fields] =>
        if fields.length = expectedArgs.length then
          let sugg := String.intercalate (", ") (fields.map Prod.fst)
          err.spanSuggestion foundSpan
            ("change the closure to take multiple arguments instead of a single tuple")
            ("|" ++ sugg ++ "|") .machineApplicable
        else err
      | _ => err
    match expectedArgs with
    | [ArgKind.tuple _ fields] =>
      if (decide (fields.length = foundArgs.length)) && isClosure then
        let sugg := "|(" ++
          String.intercalate (", ") (foundArgs.map (fun a =>
            match a with
            | ArgKind.arg name _ => name
            | _ => "_")) ++ ")" ++
          (if foundArgs.any (fun a =>
              match a with
              | ArgKind.arg _ tyText => decide (tyText ≠ "_")
              | _ => false) then
            ": (" ++ String.intercalate (", ") (fields.map Prod.snd) ++ ")"
          else "") ++ "|"
        err.spanSuggestion foundSpan
          ("change the closure to accept a tuple instead of individual arguments")
          sugg .machineApplicable
      else err
    | _ => err

/-! ### Auxiliary definitions for the stated properties -/

/-- tysOfRefs: the resolved subject types of a list of derived-link trait
refs — `chainTys` of the chain these links build. -/
def tysOfRefs (tcx : NoteTcx) (rs : List TraitRef) : List Ty :=
  rs.map (fun r => (tcx.resolve r).selfTy)

/-- idNoteTcx: a concrete `NoteTcx` whose resolver is the identity (all
inference variables already resolved) on a non-nightly session. -/
def idNoteTcx : NoteTcx :=
  ⟨fun tr => tr, fun _ => "", fun _ => none, fun sp => sp, fun _ => none, false, false⟩

/-! ### Concrete fixtures for `suggest_impl_trait` instance checks -/

def c6Env : ImplTraitEnv :=
  { fnSig := some (.returnTy ⟨40, ⟨10, 20⟩, true⟩),
    bodyReturns := [⟨41, ⟨30, 31⟩⟩],
    resolve := fun tr => tr,
    nodeType := fun h =>
      if h = 40 then some (Ty.dynamic (some 9) ("Drawable"))
      else if h = 41 then some (Ty.base ("Widget"))
      else none,
    snippet := fun sp => if sp = ⟨10, 20⟩ then some ("dyn Drawable") else some ("w"),
    objectSafetyViolationsEmpty := fun _ => true,
    dynPredsMayHold := fun _ _ => true }

def c6Ob : PredicateObligation := ⟨.otherPred, ⟨⟨0, 1⟩, 0, .sizedReturnType⟩⟩

def c6Tr : TraitRef := ⟨9, Ty.dynamic (some 9) ("Drawable"), "Drawable"⟩

def c6Fire : ImplTraitFire :=
  ⟨⟨40, ⟨10, 20⟩, true⟩, "dyn Drawable", Ty.base ("Widget"), true, true⟩

def c6Err : Diagnostic := ⟨none, "", [], [], []⟩

def c6ErrB : Diagnostic := ⟨none, "old", [], [⟨.noteKind, "stale", []⟩], []⟩

def c6SuggMsg : String :=
  "return `impl Drawable` instead, as all return paths are of type `Widget`, " ++
  "which implements `Drawable`"

def c6Res : Diagnostic :=
  ⟨some ("E0746"), "return type cannot have an unboxed trait object", [],
    [⟨.noteKind, implTraitMsgStr, []⟩],
    [⟨c6SuggMsg, [(⟨10, 20⟩, "impl Drawable")], .machineApplicable⟩]⟩

end Suggestions

namespace Suggestions

/-! ## Verified properties -/

/-- C8: for the argument-shape reporter with expected a single 2-tuple of
fields `a`, `b`, found two flat arguments named `x`, `y`, a closure, and a
found span, the emitted re-tupling suggestion is exactly `|(x, y)|`, with the
inferred type annotations appended exactly when at least one found parameter
carries a non-placeholder type text. -/
theorem report_arg_count_mismatch_retuple (env : ArgMismatchEnv) (span fs spT : Span)
    (a ta b tb x tx y tyv : String) :
    (report_arg_count_mismatch env span (some fs)
        [ArgKind.tuple (some spT) [(a, ta), (b, tb)]]
        [ArgKind.arg x tx, ArgKind.arg y tyv] true).suggestions =
      [⟨"change the closure to accept a tuple instead of individual arguments",
        [(fs, "|(" ++ x ++ ", " ++ y ++ ")" ++
          (if tx ≠ "_" ∨ tyv ≠ "_" then ": (" ++ ta ++ ", " ++ tb ++ ")" else "") ++ "|")],
        Applicability.machineApplicable⟩] := by
  by_cases h1 : tx = "_" <;> by_cases h2 : tyv = "_" <;>
    simp [report_arg_count_mismatch, args_str, Diagnostic.spanLabel,
      Diagnostic.spanSuggestion, h1, h2, String.intercalate,
      String.intercalate.go, String.append_assoc]

/-- C5: for a subject type `&&&T` whose origin snippet has three leading `&`
operators (not followed by a lifetime token), with the constraint holding on
`T` but failing on both intermediate reference levels, `suggest_remove_reference`
emits exactly one suggestion removing exactly 3 leading `&`-references, at the
first satisfying peel count. -/
theorem suggest_remove_reference_three (env : RemoveRefEnv)
    (obligation : PredicateObligation) (err : Diagnostic) (traitRef : TraitRef)
    (T : Ty) (r1 r2 r3 : Region) (m1 m2 m3 : Mutability) (snip : String)
    (hsnip : env.snippet obligation.cause.span = some snip)
    (hamps : countLeadingAmps snip = 3)
    (htick : nthNonWsIsTick snip 3 = false)
    (hty : traitRef.selfTy = .ref r1 (.ref r2 (.ref r3 T m3) m2) m1)
    (h1 : env.predicateMayHold (.ref r2 (.ref r3 T m3) m2) = false)
    (h2 : env.predicateMayHold (.ref r3 T m3) = false)
    (h3 : env.predicateMayHold T = true) :
    suggest_remove_reference env obligation err traitRef =
      err.spanSuggestionShort (env.spanTakeWhileAmps obligation.cause.span)
        ("consider removing 3 leading `&`-references") ("") .machineApplicable := by
  simp only [suggest_remove_reference, hsnip, hamps, htick, hty, Bool.false_eq_true,
    if_false, removeRefLoop, h1, h2, h3]
  rfl

/-- C9 (counterexample): `get_fn_like_arguments` does not decline silently on
a failed snippet lookup — with no retrievable source text for a closure
parameter's pattern span it `unwrap`s the failed lookup, i.e. panics, instead
of returning without effect. -/
theorem get_fn_like_arguments_panics_on_failed_snippet :
    get_fn_like_arguments ⟨fun _ => none, fun sp => sp⟩
      (FnLikeNode.closureExpr ⟨1, 2⟩ [⟨⟨3, 4⟩, .nonTuplePat⟩]) =
      Except.error PanicKind.snippetUnwrap := by
  rfl

/-- C9 (amended): the suggestion rules that consume snippets through `if let
Ok(..)` — `suggest_borrow_on_unsized_slice`, `suggest_remove_reference`,
`suggest_change_mut`, `suggest_add_reference_to_arg` — decline silently when
every snippet lookup fails: the diagnostic is returned unaltered and no
failure is raised.  (`get_fn_like_arguments` and the boxed-return path of
`suggest_impl_trait` instead `unwrap` the lookup and panic.) -/
theorem snippet_failure_declines_silently
    (benv : BorrowSliceEnv) (renv : RemoveRefEnv) (cmenv : ChangeMutEnv)
    (arenv : AddRefEnv) (code : ObligationCauseCode)
    (obligation : PredicateObligation) (err : Diagnostic) (traitRef : TraitRef)
    (pointsAtArg hasCustomMessage : Bool)
    (hb : ∀ sp, benv.snippet sp = none)
    (hr : ∀ sp, renv.snippet sp = none)
    (hc : ∀ sp, cmenv.snippet sp = none)
    (ha : ∀ sp, arenv.snippet sp = none) :
    suggest_borrow_on_unsized_slice benv code err = err ∧
    suggest_remove_reference renv obligation err traitRef = err ∧
    suggest_change_mut cmenv obligation err traitRef pointsAtArg = err ∧
    suggest_add_reference_to_arg arenv obligation err traitRef pointsAtArg
      hasCustomMessage = (false, err) := by
  refine ⟨?_, ?_, ?_, ?_⟩
  · unfold suggest_borrow_on_unsized_slice
    cases code <;> try rfl
    case variableType hirId =>
      cases hpl : benv.parentLocal hirId with
      | none => simp [hpl]
      | some localNode =>
        obtain ⟨init⟩ := localNode
        cases init with
        | none => simp [hpl]
        | some expr =>
          obtain ⟨esp, ekind⟩ := expr
          cases ekind <;> simp [hpl, hb]
  · unfold suggest_remove_reference
    simp [hr]
  · unfold suggest_change_mut
    simp [hc]
  · unfold suggest_add_reference_to_arg
    cases pointsAtArg with
    | false => rfl
    | true =>
      cases hcode : obligation.cause.code <;> simp [ha, hcode]

/-- C10: `suggest_add_reference_to_arg` is not atomic on decline — when the
cause is impl-derived, borrowing the self type satisfies the parent bound, and
the snippet is retrievable but already starts with `&`, the rule returns
`false` yet has already rewritten the diagnostic's primary message (or
appended a note when a custom message is set), so the diagnostic is mutated
although the rule declines. -/
theorem suggest_add_reference_mutates_on_decline (env : AddRefEnv)
    (obligation : PredicateObligation) (err : Diagnostic) (traitRef ptr : TraitRef)
    (parentCode : ObligationCauseCode) (snip : String) (hasCustomMessage : Bool)
    (hcode : obligation.cause.code = .implDerivedObligation ptr parentCode)
    (hhold : env.predicateMustHoldModuloRegions
      { ptr with selfTy := Ty.ref .reStatic traitRef.selfTy .not } = true)
    (hsnip : env.snippet obligation.cause.span = some snip)
    (hamp : snippetStartsWithAmp snip = true)
    (hmsg : err.message ≠ "the trait bound `" ++ tyToString traitRef.selfTy ++ ": " ++
      ptr.name ++ "` is not satisfied") :
    suggest_add_reference_to_arg env obligation err traitRef true hasCustomMessage =
      (false,
        if hasCustomMessage then
          err.note ("the trait bound `" ++ tyToString traitRef.selfTy ++ ": " ++
            ptr.name ++ "` is not satisfied")
        else
          { err with message := "the trait bound `" ++ tyToString traitRef.selfTy ++
              ": " ++ ptr.name ++ "` is not satisfied" }) ∧
    (suggest_add_reference_to_arg env obligation err traitRef true
      hasCustomMessage).2 ≠ err := by
  have heq : suggest_add_reference_to_arg env obligation err traitRef true
      hasCustomMessage =
      (false,
        if hasCustomMessage then
          err.note ("the trait bound `" ++ tyToString traitRef.selfTy ++ ": " ++
            ptr.name ++ "` is not satisfied")
        else
          { err with message := "the trait bound `" ++ tyToString traitRef.selfTy ++
              ": " ++ ptr.name ++ "` is not satisfied" }) := by
    unfold suggest_add_reference_to_arg
    simp [hcode, hhold, hsnip, hamp]
  refine ⟨heq, ?_⟩
  rw [heq]
  cases hasCustomMessage with
  | true =>
    intro hcontra
    simp only [Prod.snd, if_true] at hcontra
    have hlen := congrArg (fun d => d.children.length) hcontra
    simp [Diagnostic.note] at hlen
  | false =>
    intro hcontra
    simp only [Prod.snd, if_false] at hcontra
    have hm := congrArg Diagnostic.message hcontra
    exact hmsg hm.symm

/-- C7: `suggest_change_mut` returns without emitting anything when the
resolved trait reference still contains inference variables; otherwise, when
the opposite-mutability reference must hold, it emits the `&mut ` edit exactly
when the origin is argument position with an immutable reference and at least
one leading `&`, and in every other satisfying case emits only the
mutability-comparison note. -/
theorem suggest_change_mut_spec (env : ChangeMutEnv)
    (obligation : PredicateObligation) (err : Diagnostic) (traitRef : TraitRef)
    (pointsAtArg : Bool) :
    (tyHasInferTypes (env.resolve traitRef).selfTy = true →
      suggest_change_mut env obligation err traitRef pointsAtArg = err) ∧
    (∀ (snip : String) (region : Region) (tType : Ty) (m : Mutability),
      env.snippet obligation.cause.span = some snip →
      nthNonWsIsTick snip (countLeadingAmps snip) = false →
      tyHasInferTypes (env.resolve traitRef).selfTy = false →
      (env.resolve traitRef).selfTy = Ty.ref region tType m →
      mustApplyModuloRegions (env.evaluateNoOverflow
        { defId := (env.resolve traitRef).defId,
          selfTy := flipMutRef region tType m,
          name := (env.resolve traitRef).name }) = true →
      suggest_change_mut env obligation err traitRef pointsAtArg =
        (if pointsAtArg = true ∧ m = Mutability.not ∧ 0 < countLeadingAmps snip then
          err.spanSuggestion (env.spanTakeWhileAmps obligation.cause.span)
            ("consider changing this borrow\x27s mutability") ("&mut ")
            .machineApplicable
        else
          err.note ("`" ++ (env.resolve traitRef).name ++ "` is implemented for `" ++
            tyToString (flipMutRef region tType m) ++ "`, but not for `" ++
            tyToString (Ty.ref region tType m) ++ "`"))) := by
  constructor
  · intro hinf
    unfold suggest_change_mut
    cases hsp : env.snippet obligation.cause.span with
    | none => simp [hsp]
    | some snip => simp [hsp, hinf]
  · intro snip region tType m hsp htick hinf hself hhold
    have hinf' : tyHasInferTypes (Ty.ref region tType m) = false := by
      rw [← hself]; exact hinf
    unfold suggest_change_mut
    simp only [hsp, htick, Bool.false_eq_true, if_false, hself, hinf', hhold, if_true]
    cases pointsAtArg <;> cases m <;>
      by_cases hamp : 0 < countLeadingAmps snip <;>
        simp [hamp]

/-- C4 (counterexample): for a two-argument named function whose parameters
are the plain bindings `x` and `y`, `suggest_fn_call` renders the suggestion
`name(x, y)` — the parameter binding names — not `name(_, _)`. -/
theorem suggest_fn_call_uses_param_names :
    (suggest_fn_call
      ⟨fun _ => Ty.base ("Out"), fun _ => Ty.base ("Out"),
       fun _ _ => some .evaluatedToOk,
       fun _ => some (.fnItem ("name") ⟨10, 11⟩
         [PatKind.binding .unannotated ("x") false,
          PatKind.binding .unannotated ("y") false]),
       fun _ => none⟩
      ⟨.otherPred, ⟨⟨5, 6⟩, 0, .miscObligation⟩⟩
      ⟨none, "", [], [], []⟩
      ⟨1, Ty.fnDef 2, "Trait"⟩ true).suggestions =
      [⟨"use parentheses to call the function", [(⟨5, 6⟩, "name(x, y)")],
        Applicability.hasPlaceholders⟩] ∧
    "name(x, y)" ≠ "name(_, _)" := by
  exact ⟨by rfl, by decide⟩

/-- C4 (amended): `suggest_fn_call` on a zero-argument closure bound to
`name` yields the suggestion text exactly `name()`; on a named function it
yields `ident(p1, .., pn)` built from the parameter binding names, with `_`
substituted only for parameters that are not plain bindings or are `self` (so
`name(_, _)` arises only for such parameter patterns). -/
theorem suggest_fn_call_snippets (env : FnCallEnv) (obligation : PredicateObligation)
    (err : Diagnostic) (traitRef : TraitRef) (d : DefId) (sp : Span)
    (name identName : String) (identSpan : Span) (bodyParams : List PatKind) :
    (traitRef.selfTy = Ty.closure d →
     evalAccepts (env.evaluate traitRef.defId (env.closureSigOutput d)) = true →
     env.getIfLocal d = some (.closureExpr 0 sp) →
     env.closureParentPat d = some (.binding .unannotated name false) →
     suggest_fn_call env obligation err traitRef true =
       (err.spanLabel sp ("consider calling this closure")).spanSuggestion
         obligation.cause.span ("use parentheses to call the closure")
         (name ++ "()") .hasPlaceholders) ∧
    (traitRef.selfTy = Ty.fnDef d →
     evalAccepts (env.evaluate traitRef.defId (env.fnSigOutput d)) = true →
     env.getIfLocal d = some (.fnItem identName identSpan bodyParams) →
     suggest_fn_call env obligation err traitRef true =
       (err.spanLabel identSpan ("consider calling this function")).spanSuggestion
         obligation.cause.span ("use parentheses to call the function")
         (identName ++ "(" ++
           String.intercalate (", ") (bodyParams.map fnParamSuggName) ++ ")")
         .hasPlaceholders) := by
  constructor
  · intro hself heval hlocal hpat
    unfold suggest_fn_call
    simp only [hself, heval, hlocal, hpat, if_true]
    simp [suggest_fn_call.suggestFnCallEmit, String.intercalate, String.append_assoc]
  · intro hself heval hlocal
    unfold suggest_fn_call
    simp only [hself, heval, hlocal, if_true]
    simp [suggest_fn_call.suggestFnCallEmit]

/-- C6: whenever `suggest_impl_trait` fires (returns `true`), it has set the
error code to E0746, replaced the primary message, and cleared all previously
attached child notes (the resulting children are the same whatever children
the incoming diagnostic carried); and when it fires with all return-expression
types equal it attaches the suggestion replacing the `dyn Trait` return type
text with `impl Trait`, with applicability `MachineApplicable`. -/
theorem suggest_impl_trait_spec (env : ImplTraitEnv) (err err' : Diagnostic)
    (span : Span) (obligation : PredicateObligation) (traitRef : TraitRef)
    (f : ImplTraitFire) (r r' : Diagnostic)
    (hg : implTraitGate env span obligation traitRef = some f)
    (h : suggest_impl_trait env err span obligation traitRef = some (true, r))
    (h' : suggest_impl_trait env err' span obligation traitRef = some (true, r')) :
    r.code = some ("E0746") ∧
    r.message = "return type cannot have an unboxed trait object" ∧
    r.children = r'.children ∧
    (f.allSame = true →
      r.suggestions = err.suggestions ++
        [⟨"return `impl " ++ implTraitObjStr f ++
            "` instead, as all return paths are of type `" ++ tyToString f.lastTy ++
            "`, which implements `" ++ implTraitObjStr f ++ "`",
          [(f.retTy.span, "impl " ++ implTraitObjStr f)],
          Applicability.machineApplicable⟩]) := by
  unfold suggest_impl_trait at h h'
  rw [hg] at h h'
  unfold implTraitFireStep at h h'
  cases hall : f.allSame with
  | true =>
    simp only [hall, if_true, Option.some.injEq, Prod.mk.injEq, true_and] at h h'
    rw [← h, ← h']
    refine ⟨rfl, rfl, rfl, fun _ => ?_⟩
    simp [Diagnostic.spanSuggestion, Diagnostic.note]
  | false =>
    simp only [hall, Bool.false_eq_true, if_false] at h h'
    cases hsafe : f.isObjectSafe with
    | true =>
      simp only [hsafe, if_true] at h h'
      cases hbox : implTraitBoxParts env env.bodyReturns with
      | none => simp [hbox] at h
      | some parts =>
        simp only [hbox, Option.some.injEq, Prod.mk.injEq, true_and] at h h'
        rw [← h, ← h']
        refine ⟨rfl, rfl, rfl, fun hc => absurd hc (by simp)⟩
    | false =>
      simp only [hsafe, Bool.false_eq_true, if_false, Option.some.injEq,
        Prod.mk.injEq, true_and] at h h'
      rw [← h, ← h']
      refine ⟨rfl, rfl, rfl, fun hc => absurd hc (by simp)⟩

/-- asyncScanStep preserves a set trait ref: the scanning loop never unsets
`trait_ref`, it only keeps or replaces it. -/
theorem asyncScanStep_traitRef_isSome (st : AsyncScanState) (ptr : TraitRef)
    (h : st.traitRef.isSome = true) :
    (asyncScan.asyncScanStep st ptr).traitRef.isSome = true := by
  unfold asyncScan.asyncScanStep
  cases ptr.selfTy <;> simp [h] <;> split <;> simp [h]

/-- asyncScan preserves a set trait ref across the whole cause-chain walk. -/
theorem asyncScan_traitRef_isSome (c : ObligationCauseCode) :
    ∀ st : AsyncScanState, st.traitRef.isSome = true →
    (asyncScan st c).traitRef.isSome = true := by
  induction c
  case builtinDerivedObligation ptr parent ih =>
    intro st h
    exact ih _ (asyncScanStep_traitRef_isSome st ptr h)
  case implDerivedObligation ptr parent ih =>
    intro st h
    exact ih _ (asyncScanStep_traitRef_isSome st ptr h)
  all_goals intro st h; simpa [asyncScan] using h

/-- C3: given a trait-predicate obligation whose derived-cause chain contains
a suspension-frame (generator) type — so the scan records a first generator —
with the generator local and all snippet lookups succeeding, the capture
analyzer returns `true` exactly when the generator's interior-type table has
an entry whose type, after erasing late-bound regions and regions, is
structurally equal to the similarly erased failing subject type; with zero
matching entries it returns `false`. -/
theorem maybe_note_async_await_iff (env : AsyncEnv)
    (obligation : PredicateObligation) (p : TraitRef) (g : DefId) (tty : Ty)
    (hp : obligation.predicate = Predicate.trait p)
    (hg : (asyncScan (asyncInitState obligation.predicate)
      obligation.cause.code).generator = some g)
    (ht : (asyncScan (asyncInitState obligation.predicate)
      obligation.cause.code).targetTy = some tty)
    (hloc : (env.asLocalHirId g).isSome = true)
    (hsnip : ∀ sp, (env.spanToSnippet sp).isSome = true) :
    maybe_note_obligation_cause_for_async_await env obligation = true ↔
      ∃ c ∈ env.tables.generatorInteriorTypes,
        eraseRegions (eraseLateBoundRegions c.ty) = eraseRegions tty := by
  have htr : (asyncScan (asyncInitState obligation.predicate)
      obligation.cause.code).traitRef.isSome = true := by
    apply asyncScan_traitRef_isSome
    rw [hp]
    rfl
  obtain ⟨tr', htr'⟩ := Option.isSome_iff_exists.mp htr
  unfold maybe_note_obligation_cause_for_async_await
  have hloc' : (env.asLocalHirId g).isNone = false := by
    cases hl : env.asLocalHirId g with
    | none => rw [hl] at hloc; simp at hloc
    | some _ => rfl
  simp only [hg, htr', ht, hloc', Bool.false_eq_true, if_false]
  cases hfind : env.tables.generatorInteriorTypes.find? (fun c =>
      decide (eraseRegions (eraseLateBoundRegions c.ty) = eraseRegions tty)) with
  | none =>
    constructor
    · intro hcontra
      simp at hcontra
    · rintro ⟨c, hmem, heq⟩
      have := List.find?_eq_none.mp hfind c hmem
      simp [heq] at this
  | some c =>
    obtain ⟨s, hs⟩ := Option.isSome_iff_exists.mp (hsnip c.span)
    have hX : Option.map
        (fun c => (c.span, env.spanToSnippet c.span, c.scopeSpan, c.expr))
        (some c) = some (c.span, some s, c.scopeSpan, c.expr) := by
      simp [hs]
    rw [hX]
    constructor
    · intro _
      exact ⟨c, List.mem_of_find?_eq_some hfind,
        by simpa using List.find?_some hfind⟩
    · intro _
      rfl

/-- peelCode always reaches a non-derived cause. -/
theorem peelCode_not_derived (c : ObligationCauseCode) :
    isDerivedCode (peelCode c) = false := by
  induction c
  case builtinDerivedObligation ptr parent ih => simpa [peelCode] using ih
  case implDerivedObligation ptr parent ih => simpa [peelCode] using ih
  all_goals rfl

/-- Leaf-variant rendering has a fixed length: independent of the displayed
predicate and of the obligated-types accumulator. -/
theorem walk_leaf_len (tcx : NoteTcx) (c : ObligationCauseCode)
    (h : isDerivedCode c = false) (p p' : String) (s s' : List Ty) :
    (note_obligation_cause_code tcx p c s).length =
    (note_obligation_cause_code tcx p' c s').length := by
  cases c <;> first
    | rfl
    | simp [isDerivedCode] at h

/-- A leaf (non-derived) arm of the walker ignores the obligated-types
accumulator entirely. -/
theorem walk_leaf_indep (tcx : NoteTcx) (p : String) (s : List Ty)
    (c : ObligationCauseCode) (h : isDerivedCode c = false) :
    note_obligation_cause_code tcx p c s = note_obligation_cause_code tcx p c [] := by
  cases c <;> first
    | rfl
    | simp [isDerivedCode] at h

/-- The cycle guard reports no cycle when the next derived link's resolved
subject type is not among the obligated types. -/
theorem is_recursive_false (tcx : NoteTcx) (seen : List Ty)
    (c : ObligationCauseCode)
    (h : ∀ t, (chainTys tcx c).head? = some t → t ∉ seen) :
    is_recursive_obligation tcx seen c = false := by
  cases c
  case builtinDerivedObligation ptr parent =>
    have ht := h ((tcx.resolve ptr).selfTy) (by simp [chainTys])
    simpa [is_recursive_obligation] using ht
  case implDerivedObligation ptr parent =>
    have ht := h ((tcx.resolve ptr).selfTy) (by simp [chainTys])
    simpa [is_recursive_obligation] using ht
  all_goals rfl

/-- Generalized step-count lemma for the walker: on a chain with no repeated
derived subject type, none of which is already in the accumulator, the walk
emits one note per derived link followed by the leaf's fixed rendering. -/
theorem walk_len_of_nodup (tcx : NoteTcx) (c : ObligationCauseCode) :
    ∀ (s : List Ty) (p : String),
    (chainTys tcx c).Nodup →
    (∀ t ∈ chainTys tcx c, t ∉ s) →
    (note_obligation_cause_code tcx p c s).length =
      (chainTys tcx c).length +
      (note_obligation_cause_code tcx p (peelCode c) []).length := by
  induction c
  case builtinDerivedObligation ptr parent ih =>
    intro s p hnd hs
    have hchain : chainTys tcx (.builtinDerivedObligation ptr parent) =
        (tcx.resolve ptr).selfTy :: chainTys tcx parent := rfl
    rw [hchain] at hnd hs
    have hnd' := List.nodup_cons.mp hnd
    have hguard : is_recursive_obligation tcx
        (s ++ [(tcx.resolve ptr).selfTy]) parent = false := by
      apply is_recursive_false
      intro t hth
      have htin : t ∈ chainTys tcx parent := by
        cases hcp : chainTys tcx parent with
        | nil => rw [hcp] at hth; simp at hth
        | cons a l =>
          rw [hcp] at hth
          simp only [List.head?_cons, Option.some.injEq] at hth
          simp [hcp, hth]
      intro hmem
      rcases List.mem_append.mp hmem with hmem | hmem
      · exact (hs t (by simp [htin])) hmem
      · have ht0 : t = (tcx.resolve ptr).selfTy := by simpa using hmem
        rw [ht0] at htin
        exact hnd'.1 htin
    simp only [note_obligation_cause_code, hguard, Bool.false_eq_true, if_false]
    have hrec := ih (s ++ [(tcx.resolve ptr).selfTy])
      (traitRefPredString (tcx.resolve ptr)) hnd'.2
      (fun t ht => by
        intro hmem
        rcases List.mem_append.mp hmem with hmem | hmem
        · exact (hs t (by simp [ht])) hmem
        · have ht0 : t = (tcx.resolve ptr).selfTy := by simpa using hmem
          rw [ht0] at ht
          exact hnd'.1 ht)
    have hleaf := walk_leaf_len tcx (peelCode parent)
      (peelCode_not_derived parent) (traitRefPredString (tcx.resolve ptr)) p [] []
    simp only [List.length_append, List.length_cons, List.length_nil, hrec,
      hleaf, hchain, peelCode]
    omega
  case implDerivedObligation ptr parent ih =>
    intro s p hnd hs
    have hchain : chainTys tcx (.implDerivedObligation ptr parent) =
        (tcx.resolve ptr).selfTy :: chainTys tcx parent := rfl
    rw [hchain] at hnd hs
    have hnd' := List.nodup_cons.mp hnd
    have hrec := ih s (traitRefPredString (tcx.resolve ptr)) hnd'.2
      (fun t ht => hs t (by simp [ht]))
    have hleaf := walk_leaf_len tcx (peelCode parent)
      (peelCode_not_derived parent) (traitRefPredString (tcx.resolve ptr)) p [] []
    simp only [note_obligation_cause_code, List.length_append, List.length_cons,
      List.length_nil, hrec, hleaf, hchain, peelCode]
    omega
  all_goals
    intro s p hnd hs
    rw [walk_leaf_indep tcx p s]
    · exact (Nat.zero_add _).symm
    · rfl

/-- C2: for a cause chain with no repeated (resolved) derived subject type,
the walker produces exactly one explanatory step per derived link plus the
fixed rendering of the leaf variant, and terminates (the embedding is a total
structurally recursive function). -/
theorem note_cause_code_step_count (tcx : NoteTcx) (p : String)
    (c : ObligationCauseCode) (h : (chainTys tcx c).Nodup) :
    (note_obligation_cause_code tcx p c []).length =
      (chainTys tcx c).length +
      (note_obligation_cause_code tcx p (peelCode c) []).length :=
  walk_len_of_nodup tcx c [] p h (fun t _ => List.not_mem_nil t)

/-- C2 (witness). -/
theorem note_cause_code_step_count_witness :
    (chainTys idNoteTcx
        (.builtinDerivedObligation ⟨0, Ty.base ("A"), "Tr"⟩
          (.implDerivedObligation ⟨0, Ty.base ("B"), "Tr"⟩ .sizedReturnType))).Nodup ∧
    (note_obligation_cause_code idNoteTcx ("P")
        (.builtinDerivedObligation ⟨0, Ty.base ("A"), "Tr"⟩
          (.implDerivedObligation ⟨0, Ty.base ("B"), "Tr"⟩ .sizedReturnType))
        []).length =
      (chainTys idNoteTcx
        (.builtinDerivedObligation ⟨0, Ty.base ("A"), "Tr"⟩
          (.implDerivedObligation ⟨0, Ty.base ("B"), "Tr"⟩ .sizedReturnType))).length +
      (note_obligation_cause_code idNoteTcx ("P")
        (peelCode (.builtinDerivedObligation ⟨0, Ty.base ("A"), "Tr"⟩
          (.implDerivedObligation ⟨0, Ty.base ("B"), "Tr"⟩ .sizedReturnType)))
        []).length :=
  ⟨by decide, note_cause_code_step_count idNoteTcx ("P") _ (by decide)⟩

/-- Generalized stop lemma for builtin-derived chains: when the first `k`
links carry pairwise-distinct subject types, none already seen, and the
`k`-th link repeats one of them (or a seen type), the walk stops after exactly
`k` notes. -/
theorem walk_builtin_stops (tcx : NoteTcx) (leaf : ObligationCauseCode)
    (r : TraitRef) :
    ∀ (pre : List TraitRef) (rest : List TraitRef) (s : List Ty) (p : String),
    pre ≠ [] →
    (tysOfRefs tcx pre).Nodup →
    (∀ t ∈ tysOfRefs tcx pre, t ∉ s) →
    (tcx.resolve r).selfTy ∈ s ++ tysOfRefs tcx pre →
    (note_obligation_cause_code tcx p
        (mkBuiltinChain (pre ++ r :: rest) leaf) s).length = pre.length := by
  intro pre
  induction pre with
  | nil => intro rest s p hne; exact absurd rfl hne
  | cons p0 pre ih =>
    intro rest s p _ hnd hs hmem
    have hchain : mkBuiltinChain ((p0 :: pre) ++ r :: rest) leaf =
        .builtinDerivedObligation p0 (mkBuiltinChain (pre ++ r :: rest) leaf) := rfl
    have htys : tysOfRefs tcx (p0 :: pre) =
        (tcx.resolve p0).selfTy :: tysOfRefs tcx pre := rfl
    rw [htys] at hnd hs hmem
    have hnd' := List.nodup_cons.mp hnd
    rw [hchain]
    cases pre with
    | nil =>
      have hguard : is_recursive_obligation tcx
          (s ++ [(tcx.resolve p0).selfTy])
          (mkBuiltinChain ([] ++ r :: rest) leaf) = true := by
        show (s ++ [(tcx.resolve p0).selfTy]).contains (tcx.resolve r).selfTy = true
        have hmem' : (tcx.resolve r).selfTy ∈ s ++ [(tcx.resolve p0).selfTy] := by
          simpa [tysOfRefs] using hmem
        simpa using hmem'
      simp only [note_obligation_cause_code, hguard, if_true, List.length_cons,
        List.length_nil]
    | cons p1 pre' =>
      have h1 : (tcx.resolve p1).selfTy ∉ s := hs _ (by simp [tysOfRefs])
      have h2 : (tcx.resolve p1).selfTy ≠ (tcx.resolve p0).selfTy := by
        intro hcontra
        apply hnd'.1
        rw [← hcontra]
        simp [tysOfRefs]
      generalize hC : mkBuiltinChain ((p1 :: pre') ++ r :: rest) leaf = C
      have hguard : is_recursive_obligation tcx
          (s ++ [(tcx.resolve p0).selfTy]) C = false := by
        rw [← hC]
        show (s ++ [(tcx.resolve p0).selfTy]).contains (tcx.resolve p1).selfTy = false
        simp [h1, h2]
      have hih : (note_obligation_cause_code tcx
          (traitRefPredString (tcx.resolve p0)) C
          (s ++ [(tcx.resolve p0).selfTy])).length = (p1 :: pre').length := by
        rw [← hC]
        exact ih rest (s ++ [(tcx.resolve p0).selfTy])
          (traitRefPredString (tcx.resolve p0)) (by simp) hnd'.2
          (fun t ht => by
            intro hmem'
            rcases List.mem_append.mp hmem' with hmem' | hmem'
            · exact (hs t (by simp [ht])) hmem'
            · have ht0 : t = (tcx.resolve p0).selfTy := by simpa using hmem'
              rw [ht0] at ht
              exact hnd'.1 ht)
          (by
            rcases List.mem_append.mp hmem with hmem' | hmem'
            · exact List.mem_append.mpr (Or.inl (List.mem_append.mpr (Or.inl hmem')))
            · rcases List.mem_cons.mp hmem' with h0 | h0
              · exact List.mem_append.mpr (Or.inl (List.mem_append.mpr
                  (Or.inr (by simp [h0]))))
              · exact List.mem_append.mpr (Or.inr h0))
      simp only [note_obligation_cause_code, hguard, Bool.false_eq_true,
        if_false, List.length_append, List.length_cons, List.length_nil, hih]
      omega

/-- C1 (amended): for a chain of builtin-derived links whose first `k` subject
types are distinct and whose `k`-th link repeats one of them, the walk stops
at the repeat: it emits exactly `k` explanatory steps — fewer than `k + 1` —
and never loops (the embedded walker is a total structurally recursive
function).  Impl-derived links, by contrast, recurse without consulting the
cycle guard (see the counterexample), though the walk still terminates. -/
theorem note_cause_code_cycle_guard (tcx : NoteTcx) (p : String)
    (leaf : ObligationCauseCode) (pre rest : List TraitRef) (r : TraitRef)
    (hnd : (tysOfRefs tcx pre).Nodup)
    (hmem : (tcx.resolve r).selfTy ∈ tysOfRefs tcx pre) :
    (note_obligation_cause_code tcx p
        (mkBuiltinChain (pre ++ r :: rest) leaf) []).length = pre.length ∧
    pre.length < pre.length + 1 := by
  have hne : pre ≠ [] := by
    intro hcontra
    rw [hcontra] at hmem
    simp [tysOfRefs] at hmem
  exact ⟨walk_builtin_stops tcx leaf r pre rest [] p hne hnd
    (fun t _ h => List.not_mem_nil t h) (by simpa using hmem),
    Nat.lt_succ_self _⟩

/-- C1 (witness to the amended statement). -/
theorem note_cause_code_cycle_guard_witness :
    (note_obligation_cause_code idNoteTcx ("P")
        (mkBuiltinChain ([⟨0, Ty.base ("A"), "Tr"⟩] ++ ⟨0, Ty.base ("A"), "Tr"⟩ ::
          ([] : List TraitRef)) .miscObligation) []).length = 1 ∧
    (1 : Nat) < 1 + 1 :=
  note_cause_code_cycle_guard idNoteTcx ("P") .miscObligation
    [⟨0, Ty.base ("A"), "Tr"⟩] [] ⟨0, Ty.base ("A"), "Tr"⟩
    (by decide) (by decide)

/-- C1 (counterexample): a cause chain of three impl-derived links all with
the same subject type `T` — the repeat is at position 1 — runs to the end of
the chain: the walk emits 4 explanatory steps (three impl notes plus the
leaf's fixed rendering), not fewer than `1 + 1`, because the impl-derived arm
recurses without consulting the cycle guard. -/
theorem note_cause_code_impl_chain_escapes_guard :
    (note_obligation_cause_code idNoteTcx ("P")
        (.implDerivedObligation ⟨0, Ty.base ("T"), "Tr"⟩
          (.implDerivedObligation ⟨0, Ty.base ("T"), "Tr"⟩
            (.implDerivedObligation ⟨0, Ty.base ("T"), "Tr"⟩ .sizedReturnType)))
        []).length = 4 ∧
    chainTys idNoteTcx
        (.implDerivedObligation ⟨0, Ty.base ("T"), "Tr"⟩
          (.implDerivedObligation ⟨0, Ty.base ("T"), "Tr"⟩
            (.implDerivedObligation ⟨0, Ty.base ("T"), "Tr"⟩ .sizedReturnType))) =
      [Ty.base ("T"), Ty.base ("T"), Ty.base ("T")] ∧
    ¬((4 : Nat) < 1 + 1) :=
  ⟨by rfl, by rfl, by decide⟩

/-- C5 (witness). -/
theorem suggest_remove_reference_three_witness :
    suggest_remove_reference
      ⟨fun _ => some ("&&&v"), fun t => decide (t = Ty.base ("T")), fun sp => sp⟩
      ⟨.otherPred, ⟨⟨1, 2⟩, 0, .miscObligation⟩⟩
      ⟨none, "", [], [], []⟩
      ⟨0, Ty.ref .reErased
        (Ty.ref .reErased (Ty.ref .reErased (Ty.base ("T")) .not) .not) .not, "Tr"⟩ =
    Diagnostic.spanSuggestionShort ⟨none, "", [], [], []⟩ ⟨1, 2⟩
      ("consider removing 3 leading `&`-references") ("") .machineApplicable :=
  suggest_remove_reference_three _ _ _ _ (Ty.base ("T")) .reErased .reErased
    .reErased .not .not .not ("&&&v") rfl (by decide) (by decide) rfl
    (by decide) (by decide) (by decide)

/-- C7 (witness). -/
theorem suggest_change_mut_spec_witness :
    suggest_change_mut
      ⟨fun _ => some ("&v"), fun tr => tr, fun _ => .evaluatedToOk, fun sp => sp⟩
      ⟨.otherPred, ⟨⟨3, 4⟩, 0, .miscObligation⟩⟩
      ⟨none, "", [], [], []⟩
      ⟨0, Ty.ref .reErased (Ty.base ("T")) .not, "Tr"⟩ true =
    Diagnostic.spanSuggestion ⟨none, "", [], [], []⟩ ⟨3, 4⟩
      ("consider changing this borrow\x27s mutability") ("&mut ")
      .machineApplicable := by
  have h := (suggest_change_mut_spec
    ⟨fun _ => some ("&v"), fun tr => tr, fun _ => .evaluatedToOk, fun sp => sp⟩
    ⟨.otherPred, ⟨⟨3, 4⟩, 0, .miscObligation⟩⟩
    ⟨none, "", [], [], []⟩
    ⟨0, Ty.ref .reErased (Ty.base ("T")) .not, "Tr"⟩ true).2
    ("&v") .reErased (Ty.base ("T")) .not rfl (by decide) (by decide) rfl
    (by decide)
  rw [if_pos ⟨rfl, rfl, by decide⟩] at h
  exact h

/-- C9 (witness to the amended statement). -/
theorem snippet_failure_declines_silently_witness :
    suggest_borrow_on_unsized_slice ⟨fun _ => none, fun _ => none⟩
      .miscObligation ⟨none, "", [], [], []⟩ = ⟨none, "", [], [], []⟩ ∧
    suggest_remove_reference ⟨fun _ => none, fun _ => false, fun sp => sp⟩
      ⟨.otherPred, ⟨⟨0, 1⟩, 0, .miscObligation⟩⟩ ⟨none, "", [], [], []⟩
      ⟨0, Ty.base ("T"), "Tr"⟩ = ⟨none, "", [], [], []⟩ ∧
    suggest_change_mut ⟨fun _ => none, fun tr => tr, fun _ => .evaluatedToErr,
        fun sp => sp⟩
      ⟨.otherPred, ⟨⟨0, 1⟩, 0, .miscObligation⟩⟩ ⟨none, "", [], [], []⟩
      ⟨0, Ty.base ("T"), "Tr"⟩ true = ⟨none, "", [], [], []⟩ ∧
    suggest_add_reference_to_arg ⟨fun _ => true, fun _ => none⟩
      ⟨.otherPred, ⟨⟨0, 1⟩, 0, .implDerivedObligation ⟨7, Ty.base ("X"), "P"⟩
        .miscObligation⟩⟩ ⟨none, "", [], [], []⟩
      ⟨0, Ty.base ("T"), "Tr"⟩ true true = (false, ⟨none, "", [], [], []⟩) :=
  snippet_failure_declines_silently
    ⟨fun _ => none, fun _ => none⟩
    ⟨fun _ => none, fun _ => false, fun sp => sp⟩
    ⟨fun _ => none, fun tr => tr, fun _ => .evaluatedToErr, fun sp => sp⟩
    ⟨fun _ => true, fun _ => none⟩
    .miscObligation
    ⟨.otherPred, ⟨⟨0, 1⟩, 0, .implDerivedObligation ⟨7, Ty.base ("X"), "P"⟩
      .miscObligation⟩⟩
    ⟨none, "", [], [], []⟩ ⟨0, Ty.base ("T"), "Tr"⟩ true true
    (fun _ => rfl) (fun _ => rfl) (fun _ => rfl) (fun _ => rfl)

/-- C10 (witness). -/
theorem suggest_add_reference_mutates_on_decline_witness :
    suggest_add_reference_to_arg ⟨fun _ => true, fun _ => some ("&arg")⟩
      ⟨.otherPred, ⟨⟨2, 3⟩, 0, .implDerivedObligation ⟨7, Ty.base ("X"), "Parent"⟩
        .miscObligation⟩⟩
      ⟨none, "orig", [], [], []⟩ ⟨0, Ty.base ("S"), "Tr"⟩ true false =
      (false, ⟨none, "the trait bound `S: Parent` is not satisfied", [], [], []⟩) ∧
    (suggest_add_reference_to_arg ⟨fun _ => true, fun _ => some ("&arg")⟩
      ⟨.otherPred, ⟨⟨2, 3⟩, 0, .implDerivedObligation ⟨7, Ty.base ("X"), "Parent"⟩
        .miscObligation⟩⟩
      ⟨none, "orig", [], [], []⟩ ⟨0, Ty.base ("S"), "Tr"⟩ true false).2 ≠
      ⟨none, "orig", [], [], []⟩ := by
  have h := suggest_add_reference_mutates_on_decline
    ⟨fun _ => true, fun _ => some ("&arg")⟩
    ⟨.otherPred, ⟨⟨2, 3⟩, 0, .implDerivedObligation ⟨7, Ty.base ("X"), "Parent"⟩
      .miscObligation⟩⟩
    ⟨none, "orig", [], [], []⟩ ⟨0, Ty.base ("S"), "Tr"⟩
    ⟨7, Ty.base ("X"), "Parent"⟩ .miscObligation ("&arg") false
    rfl rfl rfl (by decide) (by decide)
  exact ⟨by rw [h.1]; rfl, h.2⟩

/-- C3 (witness): with one interior entry structurally matching the failing
subject type after erasure, the analyzer returns `true`. -/
theorem maybe_note_async_await_iff_witness :
    maybe_note_obligation_cause_for_async_await
      ⟨fun _ => some 0, fun _ => some ("x"),
        ⟨[⟨Ty.base ("Foo"), ⟨8, 9⟩, none, none⟩]⟩⟩
      ⟨.trait ⟨0, Ty.base ("Foo"), "Send"⟩,
        ⟨⟨5, 6⟩, 0, .builtinDerivedObligation ⟨1, Ty.generator 7, "Send"⟩
          (.bindingObligation 2 ⟨5, 6⟩)⟩⟩ = true :=
  (maybe_note_async_await_iff
    ⟨fun _ => some 0, fun _ => some ("x"),
      ⟨[⟨Ty.base ("Foo"), ⟨8, 9⟩, none, none⟩]⟩⟩
    ⟨.trait ⟨0, Ty.base ("Foo"), "Send"⟩,
      ⟨⟨5, 6⟩, 0, .builtinDerivedObligation ⟨1, Ty.generator 7, "Send"⟩
        (.bindingObligation 2 ⟨5, 6⟩)⟩⟩
    ⟨0, Ty.base ("Foo"), "Send"⟩ 7 (Ty.base ("Foo"))
    rfl rfl rfl rfl (fun _ => rfl)).mpr
    ⟨⟨Ty.base ("Foo"), ⟨8, 9⟩, none, none⟩, by simp, rfl⟩

/-- C4 (witness to the amended statement): a zero-argument closure bound to
`f` yields the suggestion text `f()`. -/
theorem suggest_fn_call_snippets_witness :
    suggest_fn_call
      ⟨fun _ => Ty.base ("Out"), fun _ => Ty.base ("Out"),
        fun _ _ => some .evaluatedToOk,
        fun _ => some (.closureExpr 0 ⟨20, 21⟩),
        fun _ => some (.binding .unannotated ("f") false)⟩
      ⟨.otherPred, ⟨⟨5, 6⟩, 0, .miscObligation⟩⟩
      ⟨none, "", [], [], []⟩ ⟨1, Ty.closure 2, "Trait"⟩ true =
    Diagnostic.spanSuggestion
      (Diagnostic.spanLabel ⟨none, "", [], [], []⟩ ⟨20, 21⟩
        ("consider calling this closure"))
      ⟨5, 6⟩ ("use parentheses to call the closure") ("f()")
      .hasPlaceholders := by
  have h := (suggest_fn_call_snippets
    ⟨fun _ => Ty.base ("Out"), fun _ => Ty.base ("Out"),
      fun _ _ => some .evaluatedToOk,
      fun _ => some (.closureExpr 0 ⟨20, 21⟩),
      fun _ => some (.binding .unannotated ("f") false)⟩
    ⟨.otherPred, ⟨⟨5, 6⟩, 0, .miscObligation⟩⟩
    ⟨none, "", [], [], []⟩ ⟨1, Ty.closure 2, "Trait"⟩ 2 ⟨20, 21⟩
    ("f") ("") ⟨0, 0⟩ []).1 rfl rfl rfl rfl
  exact h

/-- C6 (witness): the fixture environment fires with all return types equal;
the result replaces code and message, clears prior children, and carries the
`impl Drawable` suggestion with applicability MachineApplicable. -/
theorem suggest_impl_trait_spec_witness :
    (suggest_impl_trait c6Env c6Err ⟨10, 20⟩ c6Ob c6Tr = some (true, c6Res)) ∧
    c6Res.code = some ("E0746") ∧
    c6Res.suggestions = c6Err.suggestions ++
      [⟨c6SuggMsg, [(⟨10, 20⟩, "impl Drawable")], Applicability.machineApplicable⟩] := by
  have h := suggest_impl_trait_spec c6Env c6Err c6ErrB ⟨10, 20⟩ c6Ob c6Tr
    c6Fire c6Res c6Res (by rfl) (by rfl) (by rfl)
  exact ⟨by rfl, h.1, h.2.2.2 rfl⟩

end Suggestions
